import Mathlib

/-!
Verification development for the smart-storage-manager backend.

Shallow embedding of the core services:
  * `backend/services/analysis_service.py` — rule engine (`_cache_media_rules`,
    `apply_rules_to_media`),
  * `backend/services/settings_service.py` — layered settings resolution
    (`load_settings`),
  * `backend/app.py` — the archive branch of `handle_action`,
  * `backend/services/plex_service.py` — library snapshot builder
    (`_get_plex_library`).

Conventions of the embedding:
  * Python `datetime` values are integers (seconds); a parsed
    `YYYY-MM-DD` date (`datetime.strptime(s, '%Y-%m-%d')`) is represented by
    its day number `d`, whose datetime value is `d * 86400`.
    `timedelta(days = k)` is `k * 86400`.
  * Python `float` sizes are represented by rationals.
  * A Python value that may be `None` is an `Option`.
  * Dictionaries are functions into `Option`.
  * In-place mutation of a dataclass instance becomes a record update; a pass
    over a list becomes `List.map`.
-/

namespace SSM

/-- `item.streamingServices` is dynamically typed in the source: the snapshot
builder stores either a string (`''`, `'TV Show under 10GB'`) or a list of
provider names.  Python truthiness of the two shapes differs, so we keep the
tag. -/
inductive SSVal where
  | ofStr (s : String)
  | ofList (l : List String)
deriving DecidableEq, Repr

/-- Python truthiness of a `streamingServices` value. -/
def SSVal.truthy : SSVal → Bool
  | .ofStr s => s ≠ ""
  | .ofList l => l ≠ []

/-- Python `str()` of a `streamingServices` value, as interpolated by the
f-string in the delete-if-streaming rule. -/
def SSVal.format : SSVal → String
  | .ofStr s => s
  | .ofList l => "[" ++ String.intercalate ", " (l.map (fun x => "'" ++ x ++ "'")) ++ "]"

/-- The `MediaItem` dataclass of `backend/models.py`, flattened together with
the `Show` and `Movie` variant fields (absent variant fields are `none`/`0`,
matching the dataclass defaults). `lastWatched` is the parsed day number of
the `YYYY-MM-DD` string. -/
structure MediaItem where
  id : String
  title : String
  type : String
  size : ℚ
  lastWatched : Option Int
  watchCount : Nat
  status : Option String
  rule : Option String
  streamingServices : SSVal
  filePath : Option String
  rootFolderPath : Option String
  reason : Option String
  seasons : Nat
  episodes : Nat
  sonarrId : Option Nat
  year : Option Int
  radarrId : Option Nat
deriving DecidableEq, Repr

/-- The two keys `_cache_media_rules` reads from the settings mapping via
`settings.get(key, default)`; `none` models an absent key. -/
structure RuleSettings where
  archiveAfterMonths : Option Int
  autoDeleteAfterDays : Option Int
deriving DecidableEq, Repr

/-- Which branch of the rule chain fired for an item (instrumentation of the
`continue` statements; `none` means the item fell through every rule). -/
inductive RuleTag where
  | keepForever
  | notMonitored
  | archiveEnded
  | deleteStreaming
  | archiveAfterMonths
  | deleteAfterWatched
deriving DecidableEq, Repr

/-- One iteration of the `for item in media_list` loop of
`_cache_media_rules` (analysis_service.py), instrumented with the rule that
fired.  `now` is the value of `datetime.now()` in seconds. -/
def classifyItemTagged (i : MediaItem) (s : RuleSettings) (now : Int) :
    MediaItem × Option RuleTag :=
  if i.rule = some "keep-forever" then
    ({ i with status := some "protected" }, some .keepForever)
  else if i.rootFolderPath = none then
    ({ i with status := some "Not Monitored",
               reason := some "Media not monitored in Sonarr or Radarr" },
     some .notMonitored)
  else if i.type = "tv" ∧ (8 : ℚ) ≤ i.size ∧
          (i.status = some "ended" ∨ i.status = some "Ended") ∧
          i.rootFolderPath ≠ none ∧
          (i.rule = some "archive-ended" ∨ i.rule = some "auto-manage") then
    ({ i with status := some "candidate-archive",
               reason := some "TV show ended and size is over 8GB" },
     some .archiveEnded)
  else if i.rule = some "delete-if-streaming" ∧ i.streamingServices.truthy then
    ({ i with status := some "candidate-delete",
               reason := some ("Media status is available on " ++ i.streamingServices.format) },
     some .deleteStreaming)
  else
    match i.lastWatched with
    | none => (i, none)
    | some d =>
      if (i.rule = some "archive-after-6months" ∨ i.rule = some "auto-manage") ∧
         d * 86400 < now - (s.archiveAfterMonths.getD 6) * 30 * 86400 then
        ({ i with status := some "candidate-archive" }, some .archiveAfterMonths)
      else if 0 < i.watchCount ∧
              (i.rule = some "delete-after-watched" ∨ i.rule = some "auto-manage") ∧
              d * 86400 < now - (s.autoDeleteAfterDays.getD 30) * 86400 then
        ({ i with status := some "candidate-delete" }, some .deleteAfterWatched)
      else (i, none)

/-- The effect of one loop iteration of `_cache_media_rules` on the item. -/
def classifyItem (i : MediaItem) (s : RuleSettings) (now : Int) : MediaItem :=
  (classifyItemTagged i s now).1

/-- `_cache_media_rules(media_list, settings)`: the full pass over the list
(the source mutates the items in place and returns the same list). -/
def cache_media_rules (l : List MediaItem) (s : RuleSettings) (now : Int) :
    List MediaItem :=
  l.map (fun i => classifyItem i s now)

/-- `apply_rules_to_media(media_list, settings)` (analysis_service.py).
The cache is modelled by its single entry under the key `"analyzed_media"`:
`none` = miss, `some v` = hit with value `v`.  Returns the function result
together with the cache entry after the call (`cache.set` happens only on a
miss with a non-empty result). -/
def apply_rules_to_media (cached : Option (List MediaItem))
    (media_list : List MediaItem) (s : RuleSettings) (now : Int) :
    List MediaItem × Option (List MediaItem) :=
  match cached with
  | some v => (v, some v)
  | none =>
    let fresh := cache_media_rules media_list s now
    (fresh, if fresh.isEmpty then none else some fresh)

/-- A baseline concrete item used by the concrete instances below (fields as
the `MediaItem` dataclass defaults them, a monitored movie). -/
def itemBase : MediaItem :=
  { id := "1", title := "T", type := "movie", size := 0, lastWatched := none,
    watchCount := 0, status := some "active", rule := some "auto-manage",
    streamingServices := .ofStr "", filePath := none,
    rootFolderPath := some "/movies", reason := none, seasons := 0,
    episodes := 0, sonarrId := none, year := none, radarrId := none }

/-- Empty rule settings: both keys absent, so the `.get` defaults 6 and 30
apply. -/
def emptyRuleSettings : RuleSettings := ⟨none, none⟩

/-- Helper: the first pass touches only `status` and `reason`. -/
theorem classifyItem_frame (i : MediaItem) (s : RuleSettings) (n : Int) :
    ∃ st rs, classifyItem i s n = { i with status := st, reason := rs } := by
  unfold classifyItem classifyItemTagged
  split
  · exact ⟨some "protected", i.reason, rfl⟩
  · split
    · exact ⟨some "Not Monitored", some "Media not monitored in Sonarr or Radarr", rfl⟩
    · split
      · exact ⟨some "candidate-archive", some "TV show ended and size is over 8GB", rfl⟩
      · split
        · exact ⟨some "candidate-delete",
            some ("Media status is available on " ++ i.streamingServices.format), rfl⟩
        · split
          · exact ⟨i.status, i.reason, rfl⟩
          · split
            · exact ⟨some "candidate-archive", i.reason, rfl⟩
            · split
              · exact ⟨some "candidate-delete", i.reason, rfl⟩
              · exact ⟨i.status, i.reason, rfl⟩

/-- C1 (counterexample): an item with `rootFolderPath = None` but
`rule = 'keep-forever'` is classified `protected`, not `Not Monitored` —
the keep-forever rule is checked first, so the claimed
"regardless of every other field, including its rule" fails. -/
theorem c1_null_root_counterexample :
    (classifyItem { itemBase with rule := some "keep-forever", rootFolderPath := none }
        emptyRuleSettings 0).status = some "protected" ∧
    (classifyItem { itemBase with rule := some "keep-forever", rootFolderPath := none }
        emptyRuleSettings 0).status ≠ some "Not Monitored" ∧
    (classifyItem { itemBase with rule := some "keep-forever", rootFolderPath := none }
        emptyRuleSettings 0).reason = none := by
  refine ⟨rfl, ?_, rfl⟩
  decide

/-- C1 (amended): for every item with `rootFolderPath = None` whose rule is
not `keep-forever`, the rule engine yields status `Not Monitored` with the
reason set, regardless of every other field. -/
theorem c1_null_root_not_monitored (i : MediaItem) (s : RuleSettings) (n : Int)
    (hroot : i.rootFolderPath = none) (hrule : i.rule ≠ some "keep-forever") :
    (classifyItem i s n).status = some "Not Monitored" ∧
    (classifyItem i s n).reason = some "Media not monitored in Sonarr or Radarr" := by
  unfold classifyItem classifyItemTagged
  rw [if_neg hrule, if_pos hroot]
  exact ⟨rfl, rfl⟩

/-- C1 witness: the amended theorem at a concrete unmatched item. -/
theorem c1_null_root_witness :
    (classifyItem { itemBase with rootFolderPath := none } emptyRuleSettings 0).status =
      some "Not Monitored" ∧
    (classifyItem { itemBase with rootFolderPath := none } emptyRuleSettings 0).reason =
      some "Media not monitored in Sonarr or Radarr" :=
  c1_null_root_not_monitored _ _ _ rfl (by decide)

/-- C2: a tv item of size ≥ 8 whose source status is an ended lifecycle value
(`'ended'` or `'Ended'`), with a non-null `rootFolderPath` and rule in
{archive-ended, auto-manage}, is classified `candidate-archive` with the
size/ended reason, and the match is terminal: the result is exactly the input
with only status/reason overwritten, no later rule being evaluated. -/
theorem c2_archive_ended_rule (i : MediaItem) (s : RuleSettings) (n : Int) (p : String)
    (htype : i.type = "tv") (hsize : (8 : ℚ) ≤ i.size)
    (hst : i.status = some "ended" ∨ i.status = some "Ended")
    (hroot : i.rootFolderPath = some p)
    (hrule : i.rule = some "archive-ended" ∨ i.rule = some "auto-manage") :
    classifyItemTagged i s n =
      ({ i with status := some "candidate-archive",
                 reason := some "TV show ended and size is over 8GB" },
       some .archiveEnded) := by
  have h1 : ¬ i.rule = some "keep-forever" := by
    rcases hrule with h | h <;> simp [h]
  have h2 : ¬ i.rootFolderPath = none := by simp [hroot]
  unfold classifyItemTagged
  rw [if_neg h1, if_neg h2, if_pos ⟨htype, hsize, hst, h2, hrule⟩]

/-- C2 witness: the scenario item
`{type: tv, rule: auto-manage, status: "ended", size: 9.0,
rootFolderPath: "/tv/Show", lastWatched: null}` is classified
`candidate-archive`. -/
theorem c2_archive_ended_witness :
    classifyItemTagged
        { itemBase with type := "tv", size := 9, status := some "ended",
                        rule := some "auto-manage", rootFolderPath := some "/tv/Show" }
        emptyRuleSettings 0 =
      ({ itemBase with type := "tv", size := 9, status := some "candidate-archive",
                       rule := some "auto-manage", rootFolderPath := some "/tv/Show",
                       reason := some "TV show ended and size is over 8GB" },
       some .archiveEnded) :=
  c2_archive_ended_rule _ _ _ "/tv/Show" rfl (by decide) (Or.inl rfl) rfl (Or.inr rfl)

/-- C3: for an item with rule in {archive-after-6months, auto-manage}, a
present `lastWatched` and no earlier rule matching, the archive-after-months
rule fires exactly when the parsed `lastWatched` date is strictly earlier
than `now - archiveAfterMonths * 30 days` (30-day months, default 6), and in
that case the item's status is set to `candidate-archive` terminally. -/
theorem c3_archive_after_months (i : MediaItem) (s : RuleSettings) (n : Int)
    (d : Int) (p : String)
    (hrule : i.rule = some "archive-after-6months" ∨ i.rule = some "auto-manage")
    (hlw : i.lastWatched = some d)
    (hroot : i.rootFolderPath = some p)
    (h3 : ¬ (i.type = "tv" ∧ (8 : ℚ) ≤ i.size ∧
             (i.status = some "ended" ∨ i.status = some "Ended") ∧
             i.rootFolderPath ≠ none ∧
             (i.rule = some "archive-ended" ∨ i.rule = some "auto-manage"))) :
    ((classifyItemTagged i s n).2 = some .archiveAfterMonths ↔
        d * 86400 < n - (s.archiveAfterMonths.getD 6) * 30 * 86400) ∧
    (d * 86400 < n - (s.archiveAfterMonths.getD 6) * 30 * 86400 →
        classifyItemTagged i s n =
          ({ i with status := some "candidate-archive" }, some .archiveAfterMonths)) := by
  have h1 : ¬ i.rule = some "keep-forever" := by
    rcases hrule with h | h <;> simp [h]
  have h2 : ¬ i.rootFolderPath = none := by simp [hroot]
  have h4 : ¬ (i.rule = some "delete-if-streaming" ∧ i.streamingServices.truthy = true) := by
    rcases hrule with h | h <;> simp [h]
  unfold classifyItemTagged
  rw [if_neg h1, if_neg h2, if_neg h3, if_neg h4, hlw]
  dsimp only
  by_cases hlt : d * 86400 < n - (s.archiveAfterMonths.getD 6) * 30 * 86400
  · rw [if_pos ⟨hrule, hlt⟩]
    exact ⟨by simp [hlt], fun _ => rfl⟩
  · rw [if_neg (fun hc => hlt hc.2)]
    refine ⟨?_, fun h => absurd h hlt⟩
    split
    · simp [hlt]
    · simp [hlt]

/-- C3 witness: a monitored movie with rule auto-manage last watched at day 0,
evaluated at day 200; the 180-day cutoff (6 · 30 days) makes the rule fire. -/
theorem c3_archive_after_months_witness :
    ((classifyItemTagged { itemBase with lastWatched := some 0 }
        emptyRuleSettings 17280000).2 = some RuleTag.archiveAfterMonths ↔
      (0 : Int) * 86400 < 17280000 - 6 * 30 * 86400) ∧
    ((0 : Int) * 86400 < 17280000 - 6 * 30 * 86400 →
      classifyItemTagged { itemBase with lastWatched := some 0 }
        emptyRuleSettings 17280000 =
      ({ itemBase with lastWatched := some 0, status := some "candidate-archive" },
       some RuleTag.archiveAfterMonths)) :=
  c3_archive_after_months _ emptyRuleSettings 17280000 0 "/movies"
    (Or.inr rfl) rfl rfl (by decide)

/-- The precise failure pattern of re-running the rule pass on its own
output: the first pass fired the ended-TV archive rule (which overwrites the
`'ended'` source status the rule itself tests), and on the second pass the
archive-after-months rule misses while the delete-after-watched rule fires
(possible only for rule `auto-manage`). -/
def reclassifiedDelete (i : MediaItem) (s : RuleSettings) (n : Int) : Prop :=
  (classifyItemTagged i s n).2 = some .archiveEnded ∧
  i.rule = some "auto-manage" ∧
  ∃ d, i.lastWatched = some d ∧ 0 < i.watchCount ∧
    ¬ d * 86400 < n - (s.archiveAfterMonths.getD 6) * 30 * 86400 ∧
    d * 86400 < n - (s.autoDeleteAfterDays.getD 30) * 86400

/-- Helper: one item is a fixpoint of a second pass unless it matches
`reclassifiedDelete`. -/
theorem classifyItem_idem (i : MediaItem) (s : RuleSettings) (n : Int)
    (h : ¬ reclassifiedDelete i s n) :
    classifyItem (classifyItem i s n) s n = classifyItem i s n := by
  by_cases h1 : i.rule = some "keep-forever"
  · have e1 : classifyItemTagged i s n =
        ({ i with status := some "protected" }, some .keepForever) := by
      unfold classifyItemTagged; rw [if_pos h1]
    unfold classifyItem
    rw [e1]
    simp +decide [classifyItemTagged, h1]
  · by_cases h2 : i.rootFolderPath = none
    · have e1 : classifyItemTagged i s n =
          ({ i with status := some "Not Monitored",
                    reason := some "Media not monitored in Sonarr or Radarr" },
           some .notMonitored) := by
        unfold classifyItemTagged; rw [if_neg h1, if_pos h2]
      unfold classifyItem
      rw [e1]
      simp +decide [classifyItemTagged, h1, h2]
    · by_cases h3 : i.type = "tv" ∧ (8 : ℚ) ≤ i.size ∧
          (i.status = some "ended" ∨ i.status = some "Ended") ∧
          i.rootFolderPath ≠ none ∧
          (i.rule = some "archive-ended" ∨ i.rule = some "auto-manage")
      · have e1 : classifyItemTagged i s n =
            ({ i with status := some "candidate-archive",
                      reason := some "TV show ended and size is over 8GB" },
             some .archiveEnded) := by
          unfold classifyItemTagged; rw [if_neg h1, if_neg h2, if_pos h3]
        unfold classifyItem
        rw [e1]
        rcases h3.2.2.2.2 with hr | hr
        · cases hlw : i.lastWatched <;>
            simp +decide [classifyItemTagged, hr, hlw, h2]
        · cases hlw : i.lastWatched with
          | none => simp +decide [classifyItemTagged, hr, hlw, h2]
          | some d =>
            by_cases h5 : d * 86400 < n - (s.archiveAfterMonths.getD 6) * 30 * 86400
            · simp +decide [classifyItemTagged, hr, hlw, h5, h2]
            · by_cases h6 : 0 < i.watchCount ∧
                  d * 86400 < n - (s.autoDeleteAfterDays.getD 30) * 86400
              · exact absurd
                  ⟨by rw [e1], hr, d, hlw, h6.1, h5, h6.2⟩ h
              · simp +decide [classifyItemTagged, hr, hlw, h5, h6, h2]
      · by_cases h4 : i.rule = some "delete-if-streaming" ∧ i.streamingServices.truthy
        · have e1 : classifyItemTagged i s n =
              ({ i with status := some "candidate-delete",
                        reason := some ("Media status is available on " ++
                          i.streamingServices.format) },
               some .deleteStreaming) := by
            unfold classifyItemTagged; rw [if_neg h1, if_neg h2, if_neg h3, if_pos h4]
          unfold classifyItem
          rw [e1]
          simp +decide [classifyItemTagged, h4.1, h4.2, h2]
        · cases hlw : i.lastWatched with
          | none =>
            have e1 : classifyItemTagged i s n = (i, none) := by
              unfold classifyItemTagged
              rw [if_neg h1, if_neg h2, if_neg h3, if_neg h4, hlw]
            unfold classifyItem
            rw [e1]
            dsimp only
            rw [e1]
          | some d =>
            by_cases h5 : (i.rule = some "archive-after-6months" ∨
                i.rule = some "auto-manage") ∧
                d * 86400 < n - (s.archiveAfterMonths.getD 6) * 30 * 86400
            · have e1 : classifyItemTagged i s n =
                  ({ i with status := some "candidate-archive" },
                   some .archiveAfterMonths) := by
                unfold classifyItemTagged
                rw [if_neg h1, if_neg h2, if_neg h3, if_neg h4, hlw]
                dsimp only
                rw [if_pos h5]
              unfold classifyItem
              rw [e1]
              rcases h5.1 with hr | hr <;>
                simp +decide [classifyItemTagged, hr, hlw, h5.2, h2]
            · by_cases h6 : 0 < i.watchCount ∧
                  (i.rule = some "delete-after-watched" ∨ i.rule = some "auto-manage") ∧
                  d * 86400 < n - (s.autoDeleteAfterDays.getD 30) * 86400
              · have e1 : classifyItemTagged i s n =
                    ({ i with status := some "candidate-delete" },
                     some .deleteAfterWatched) := by
                  unfold classifyItemTagged
                  rw [if_neg h1, if_neg h2, if_neg h3, if_neg h4, hlw]
                  dsimp only
                  rw [if_neg h5, if_pos h6]
                unfold classifyItem
                rw [e1]
                rcases h6.2.1 with hr | hr
                · simp +decide [classifyItemTagged, hr, hlw, h6.1, h6.2.2, h2]
                · have hA : ¬ d * 86400 < n - (s.archiveAfterMonths.getD 6) * 30 * 86400 :=
                    fun hx => h5 ⟨Or.inr hr, hx⟩
                  simp +decide [classifyItemTagged, hr, hlw, h6.1, h6.2.2, hA, h2]
              · have e1 : classifyItemTagged i s n = (i, none) := by
                  unfold classifyItemTagged
                  rw [if_neg h1, if_neg h2, if_neg h3, if_neg h4, hlw]
                  dsimp only
                  rw [if_neg h5, if_neg h6]
                unfold classifyItem
                rw [e1]
                dsimp only
                rw [e1]

/-- C4 (counterexample): classification is not idempotent.  An ended 9GB tv
show on rule `auto-manage`, last watched 100 days before `now = day 200`,
watch count 1: the first pass classifies it `candidate-archive` via the
ended-TV rule (overwriting the `'ended'` status the rule tests); the second
pass, seeing status `candidate-archive`, skips that rule and the
delete-after-watched rule reclassifies the item `candidate-delete`. -/
theorem c4_idempotence_counterexample :
    cache_media_rules
        (cache_media_rules
          [{ itemBase with type := "tv", size := 9, status := some "ended",
                           rule := some "auto-manage", rootFolderPath := some "/tv/x",
                           lastWatched := some 100, watchCount := 1 }]
          emptyRuleSettings 17280000)
        emptyRuleSettings 17280000 ≠
      cache_media_rules
        [{ itemBase with type := "tv", size := 9, status := some "ended",
                         rule := some "auto-manage", rootFolderPath := some "/tv/x",
                         lastWatched := some 100, watchCount := 1 }]
        emptyRuleSettings 17280000 := by
  decide

/-- C4 (amended): running the rule pass a second time, on the items as
mutated by the first pass with the same settings and evaluation time, yields
the same status and reason for every item — except for items matching
`reclassifiedDelete` (first pass fired the ended-TV archive rule, and on the
second pass the auto-manage delete-after-watched window applies, turning
`candidate-archive` into `candidate-delete`). -/
theorem c4_idempotent_unless_reclassified (l : List MediaItem) (s : RuleSettings)
    (n : Int) (h : ∀ i ∈ l, ¬ reclassifiedDelete i s n) :
    cache_media_rules (cache_media_rules l s n) s n = cache_media_rules l s n := by
  unfold cache_media_rules
  rw [List.map_map]
  exact List.map_congr_left fun i hi =>
    classifyItem_idem i s n (h i hi)

/-- C4 witness: the amended idempotence theorem at a concrete singleton list
(a monitored movie that no rule reclassifies). -/
theorem c4_idempotent_witness :
    cache_media_rules (cache_media_rules [SSM.itemBase] emptyRuleSettings 0)
        emptyRuleSettings 0 =
      cache_media_rules [SSM.itemBase] emptyRuleSettings 0 :=
  c4_idempotent_unless_reclassified [SSM.itemBase] emptyRuleSettings 0
    (by
      intro i hi
      rw [List.mem_singleton] at hi
      subst hi
      intro hr
      exact absurd hr.1 (by decide))

/-- C9: frame property of the rule pass — the output list has the same
length, and item-by-item (in order) every field other than `status` and
`reason` is unchanged. -/
theorem c9_classification_frame (l : List MediaItem) (s : RuleSettings) (n : Int) :
    (cache_media_rules l s n).length = l.length ∧
    List.Forall₂ (fun a b =>
      b.id = a.id ∧ b.title = a.title ∧ b.type = a.type ∧ b.size = a.size ∧
      b.lastWatched = a.lastWatched ∧ b.watchCount = a.watchCount ∧
      b.rule = a.rule ∧ b.streamingServices = a.streamingServices ∧
      b.filePath = a.filePath ∧ b.rootFolderPath = a.rootFolderPath ∧
      b.seasons = a.seasons ∧ b.episodes = a.episodes ∧
      b.sonarrId = a.sonarrId ∧ b.year = a.year ∧ b.radarrId = a.radarrId)
      l (cache_media_rules l s n) := by
  constructor
  · exact List.length_map l _
  · unfold cache_media_rules
    induction l with
    | nil => exact List.Forall₂.nil
    | cons a t ih =>
      rw [List.map_cons]
      refine List.Forall₂.cons ?_ ih
      dsimp only
      obtain ⟨st, rs, he⟩ := classifyItem_frame a s n
      rw [he]
      exact ⟨rfl, rfl, rfl, rfl, rfl, rfl, rfl, rfl, rfl, rfl, rfl, rfl, rfl, rfl, rfl⟩

/-- C10: two-run property of `apply_rules_to_media`.  In any cache state with
an entry under `"analyzed_media"`, two calls both return that entry untouched
regardless of their `media_list`/`settings` arguments, and the cache is not
written; the rule pass runs only on a miss, and the cache is then written
exactly when the result is non-empty. -/
theorem c10_cache_hit_two_runs (v l₁ l₂ : List MediaItem)
    (s₁ s₂ : RuleSettings) (n₁ n₂ : Int) :
    apply_rules_to_media (some v) l₁ s₁ n₁ = (v, some v) ∧
    apply_rules_to_media (some v) l₂ s₂ n₂ = (v, some v) ∧
    (apply_rules_to_media none l₁ s₁ n₁).1 = cache_media_rules l₁ s₁ n₁ ∧
    (apply_rules_to_media none l₁ s₁ n₁).2 =
      (if (cache_media_rules l₁ s₁ n₁).isEmpty then none
       else some (cache_media_rules l₁ s₁ n₁)) :=
  ⟨rfl, rfl, rfl, rfl⟩

/-! ## Settings resolver (`backend/services/settings_service.py`) -/

/-- A JSON value as stored in a settings dictionary. -/
inductive JVal where
  | null
  | str (s : String)
  | boolean (b : Bool)
  | num (n : Int)
  | arr (l : List JVal)
  | obj (l : List (String × JVal))
deriving Repr

/-- Python's `user_value not in [None, "", []]`: the value is "present"
unless it equals `None`, the empty string or the empty list (note that
`False`, `0` and `{}` all count as present). -/
def isValuePresent : JVal → Bool
  | .null => false
  | .str s => s ≠ ""
  | .arr l => !l.isEmpty
  | _ => true

/-- `ENV_KEYS_TO_MERGE` of settings_service.py. -/
def ENV_KEYS_TO_MERGE : List String :=
  ["PLEX_URL", "PLEX_TOKEN", "SONARR_URL", "SONARR_API_KEY",
   "RADARR_URL", "RADARR_API_KEY", "TMDB_API_KEY", "MOUNT_POINTS",
   "TV_ARCHIVE_FOLDERS", "MOVIE_ARCHIVE_FOLDERS", "STREAMING_PROVIDERS",
   "AVAILABLE_STREAMING_PROVIDERS", "DATA_UPDATE_INTERVAL", "ARCHIVE_DRIVE"]

/-- The keys whose environment value is split on commas into a list. -/
def LIST_ENV_KEYS : List String :=
  ["MOUNT_POINTS", "TV_ARCHIVE_FOLDERS", "MOVIE_ARCHIVE_FOLDERS",
   "STREAMING_PROVIDERS", "AVAILABLE_STREAMING_PROVIDERS"]

/-- `[v.strip() for v in value.split(',') if v.strip()]`. -/
def splitTrim (s : String) : List String :=
  ((s.split (fun c => c = ',')).map String.trim).filter (fun v => v ≠ "")

/-- `get_default_settings()`: the hardcoded defaults.  The dict literal first
lists three app keys, then gives every env key the empty string, then
overrides the five list keys with empty lists (later literal entries win).
A dictionary is a partial map from key to value. -/
def get_default_settings : String → Option JVal := fun k =>
  if k ∈ LIST_ENV_KEYS then some (.arr [])
  else if k ∈ ENV_KEYS_TO_MERGE then some (.str "")
  else if k = "enableAutoActions" then some (.boolean false)
  else if k = "archiveMappings" then some (.arr [])
  else if k = "preferredStreamingServices" then some (.arr [])
  else none

/-- The `env_settings` dict built by `load_settings`: for each key of
`ENV_KEYS_TO_MERGE` with a set environment variable, the raw string, or for
the five list keys its comma-split trimmed list.  `env` is `os.getenv`. -/
def env_settings (env : String → Option String) : String → Option JVal := fun k =>
  if k ∈ ENV_KEYS_TO_MERGE then
    match env k with
    | some v =>
      if k ∈ LIST_ENV_KEYS then some (.arr ((splitTrim v).map .str))
      else some (.str v)
    | none => none
  else none

/-- `final_settings.update(env_settings)`: every key of the update dict
overwrites the base. -/
def dictUpdate (base upd : String → Option JVal) : String → Option JVal := fun k =>
  match upd k with
  | some v => some v
  | none => base k

/-- The user-settings loop of `load_settings`: a user value overwrites the
merged base only when `isValuePresent`. -/
def applyUserSettings (base user : String → Option JVal) : String → Option JVal :=
  fun k =>
    match user k with
    | some v => if isValuePresent v then some v else base k
    | none => base k

/-- `load_settings()` (settings_service.py), with `env` standing for
`os.getenv` and `user` for the parsed `settings.json` dictionary (a malformed
or missing file is the empty dictionary `fun _ => none`). -/
def load_settings (env : String → Option String) (user : String → Option JVal) :
    String → Option JVal :=
  applyUserSettings (dictUpdate get_default_settings (env_settings env)) user

/-- C5: settings are resolved by three layers with precedence
defaults < environment < user file.  For every key: a present (non-null,
non-empty-string, non-empty-list) user value wins — in particular an explicit
boolean `false` from the user file wins; otherwise the environment-derived
value wins when the variable is set; otherwise the hardcoded default is
used. -/
theorem c5_settings_precedence (env : String → Option String)
    (user : String → Option JVal) (k : String) :
    (∀ v, user k = some v → isValuePresent v = true →
        load_settings env user k = some v) ∧
    (∀ b, user k = some (.boolean b) → load_settings env user k = some (.boolean b)) ∧
    ((user k = none ∨ ∃ v, user k = some v ∧ isValuePresent v = false) →
      (∀ w, env_settings env k = some w → load_settings env user k = some w) ∧
      (env_settings env k = none → load_settings env user k = get_default_settings k)) := by
  refine ⟨?_, ?_, ?_⟩
  · intro v hv hp
    unfold load_settings applyUserSettings
    rw [hv]
    simp [hp]
  · intro b hv
    unfold load_settings applyUserSettings
    rw [hv]
    simp [isValuePresent]
  · intro habs
    constructor
    · intro w hw
      unfold load_settings applyUserSettings dictUpdate
      rcases habs with hn | ⟨v, hv, hp⟩
      · rw [hn, hw]
      · rw [hv, hw]
        simp [hp]
    · intro he
      unfold load_settings applyUserSettings dictUpdate
      rcases habs with hn | ⟨v, hv, hp⟩
      · rw [hn, he]
      · rw [hv, he]
        simp [hp]

/-- C5 witness: with `enableAutoActions` set (say by default-equivalent env
absence) and the user file explicitly storing `false`, the resolved value is
`false`; with the user file silent on `PLEX_URL`, a set environment variable
wins over the default. -/
theorem c5_settings_precedence_witness :
    load_settings (fun k => if k = "PLEX_URL" then some "http://env" else none)
        (fun k => if k = "enableAutoActions" then some (.boolean false) else none)
        "enableAutoActions" = some (.boolean false) ∧
    load_settings (fun k => if k = "PLEX_URL" then some "http://env" else none)
        (fun k => if k = "enableAutoActions" then some (.boolean false) else none)
        "PLEX_URL" = some (.str "http://env") :=
  ⟨(c5_settings_precedence _ _ "enableAutoActions").2.1 false rfl,
   ((c5_settings_precedence _ _ "PLEX_URL").2.2 (Or.inl rfl)).1 (.str "http://env") rfl⟩

/-! ## Action executor: the archive branch of `handle_action` (`backend/app.py`) -/

/-- Python truthiness of an optional string (`None` and `''` are falsy). -/
def truthyStr : Option String → Bool
  | none => false
  | some s => s ≠ ""

/-- `os.path.dirname` for POSIX paths: everything up to the last `/`, with
trailing slashes stripped from the head unless the head is all slashes. -/
def dirname (p : String) : String :=
  let cs := p.data
  let head := (cs.reverse.dropWhile (fun c => c ≠ '/')).reverse
  if head.isEmpty then ""
  else if head.all (fun c => c = '/') then String.mk head
  else String.mk ((head.reverse.dropWhile (fun c => c = '/')).reverse)

/-- The fields of the request body `item` that the archive branch reads. -/
structure ActionItem where
  title : Option String
  type : Option String
  sonarrId : Option Nat
  radarrId : Option Nat
  filePath : Option String
deriving DecidableEq, Repr

/-- An observable side effect of the action handler: a library-manager move
(`file_service.move_sonarr_series` / `move_radarr_movie`) or a cache
invalidation (`cache.delete`). -/
inductive ActionEffect where
  | moveSonarr (src dst : String) (id : Option Nat)
  | moveRadarr (src dst : String) (id : Option Nat)
  | cacheDelete (key : String)
deriving DecidableEq, Repr

/-- The JSON reply of the handler with its HTTP status code. -/
structure ActionResponse where
  status : String
  message : String
  httpCode : Nat
deriving DecidableEq, Repr

/-- The `action == 'archive'` branch of `handle_action` (app.py).  `tvFolders`
and `movieFolders` are `settings.get('TV_ARCHIVE_FOLDERS', [])` and
`settings.get('MOVIE_ARCHIVE_FOLDERS', [])` from the resolved settings;
`archivePath` is `data.get('archivePath')`.  The outcome of the
library-manager move is an oracle pair (`moveOk`, `moveMsg`).  Returns the
response together with the list of effects performed, in order. -/
def handle_archive (tvFolders movieFolders : List String) (item : ActionItem)
    (archivePath : Option String) (moveOk : Bool) (moveMsg : String) :
    ActionResponse × List ActionEffect :=
  let isTv := item.type = some "tv"
  let validFolders := if isTv then tvFolders else movieFolders
  let itemId := if isTv then item.sonarrId else item.radarrId
  if ¬ truthyStr archivePath then
    (⟨"error", "No archive folder was selected in the request.", 400⟩, [])
  else if validFolders = [] then
    (⟨"error", "No archive folders are configured. Please set them in the settings.", 400⟩, [])
  else if ¬ archivePath.getD "" ∈ validFolders then
    (⟨"error", "Security error: The selected folder is not in the list of pre-configured archive folders.", 400⟩, [])
  else if ¬ truthyStr item.filePath then
    (⟨"error", "Could not find media item file path.", 404⟩, [])
  else
    let src := dirname (item.filePath.getD "")
    let dst := archivePath.getD ""
    let moveEff := if isTv then ActionEffect.moveSonarr src dst itemId
                   else ActionEffect.moveRadarr src dst itemId
    if ¬ moveOk then
      (⟨"error", "File move failed: " ++ moveMsg, 500⟩, [moveEff])
    else
      (⟨"success", "Successfully archived.", 200⟩,
       [moveEff, .cacheDelete "dashboard_data", .cacheDelete "plex_media_data_full"])

/-- C6: the archive branch fails closed.  If any precondition is missing —
no destination selected, no archive folders configured for the item's type
(TV_ARCHIVE_FOLDERS for tv, MOVIE_ARCHIVE_FOLDERS otherwise), a selected
destination outside the type-appropriate allow-list, or a missing file
path — the handler returns a structured error response and performs no
effect: no move call and no cache invalidation. -/
theorem c6_archive_fails_closed (tvFolders movieFolders : List String)
    (item : ActionItem) (archivePath : Option String) (moveOk : Bool) (moveMsg : String)
    (h : ¬ truthyStr archivePath ∨
         (if item.type = some "tv" then tvFolders else movieFolders) = [] ∨
         (truthyStr archivePath ∧
           ¬ archivePath.getD "" ∈ (if item.type = some "tv" then tvFolders else movieFolders)) ∨
         ¬ truthyStr item.filePath) :
    (handle_archive tvFolders movieFolders item archivePath moveOk moveMsg).1.status =
      "error" ∧
    (handle_archive tvFolders movieFolders item archivePath moveOk moveMsg).2 = [] := by
  unfold handle_archive
  by_cases h1 : truthyStr archivePath
  · rw [if_neg (by simpa using h1)]
    by_cases h2 : (if item.type = some "tv" then tvFolders else movieFolders) = []
    · rw [if_pos h2]
      exact ⟨rfl, rfl⟩
    · rw [if_neg h2]
      by_cases h3 : archivePath.getD "" ∈ (if item.type = some "tv" then tvFolders else movieFolders)
      · rw [if_neg (by simpa using h3)]
        by_cases h4 : truthyStr item.filePath
        · rcases h with hc | hc | hc | hc
          · exact absurd h1 hc
          · exact absurd hc h2
          · exact absurd h3 hc.2
          · exact absurd h4 hc
        · rw [if_pos (by simpa using h4)]
          exact ⟨rfl, rfl⟩
      · rw [if_pos (by simpa using h3)]
        exact ⟨rfl, rfl⟩
  · rw [if_pos (by simpa using h1)]
    exact ⟨rfl, rfl⟩

/-- C6 witness: a tv item whose selected destination `/evil` is a plausible
path but absent from the configured TV allow-list is rejected with no
effects. -/
theorem c6_archive_fails_closed_witness :
    (handle_archive ["/archive/tv"] ["/archive/movies"]
        ⟨some "Show", some "tv", some 3, none, some "/tv/Show/s1.mkv"⟩
        (some "/evil") true "").1.status = "error" ∧
    (handle_archive ["/archive/tv"] ["/archive/movies"]
        ⟨some "Show", some "tv", some 3, none, some "/tv/Show/s1.mkv"⟩
        (some "/evil") true "").2 = [] :=
  c6_archive_fails_closed _ _ _ _ _ _
    (Or.inr (Or.inr (Or.inl ⟨by decide, by decide⟩)))

/-! ## Library snapshot builder (`backend/services/plex_service.py`) -/

/-- `os.path.normpath` for POSIX paths: drop empty and `.` components,
resolve `..` against the stack (keeping leading `..` on relative paths),
preserve the special two-slash root. -/
def normpath (p : String) : String :=
  if p = "" then "." else
  let cs := p.data
  let slashes : Nat :=
    if cs.head? = some '/' then
      if cs.take 2 = ['/', '/'] ∧ cs.take 3 ≠ ['/', '/', '/'] then 2 else 1
    else 0
  let comps := (p.split (fun c => c = '/')).filter (fun c => c ≠ "" ∧ c ≠ ".")
  let newComps := comps.foldl (fun acc c =>
      if c ≠ ".." then acc ++ [c]
      else if slashes = 0 ∧ acc = [] then acc ++ [c]
      else if acc.getLast? = some ".." then acc ++ [c]
      else if acc ≠ [] then acc.dropLast
      else acc) []
  let r := String.mk (List.replicate slashes '/') ++ String.intercalate "/" newComps
  if r = "" then "." else r

/-- `is_tv_archive_folder(path)` (plex_service.py): true when the normalized
path is among the normalized, comma-split entries of the `TV_ARCHIVE_FOLDERS`
environment variable (`raw`; unset and `''` are both falsy). -/
def is_tv_archive_folder (raw : Option String) (path : Option String) : Bool :=
  match path with
  | none => false
  | some p =>
    if p = "" then false
    else match raw with
      | none => false
      | some tv =>
        if tv = "" then false
        else normpath p ∈
          (((tv.split (fun c => c = ',')).map String.trim).filter
            (fun f => f ≠ "")).map normpath

/-- The `Availability(provider, all)` pair returned by
`check_streaming_availability`: the preferred-filtered provider names and the
overall provider names. -/
structure Availability where
  provider : List String
  allProviders : List String
deriving DecidableEq, Repr

/-- A Plex movie entry, with the fields the builder reads.  `media0` is
`movie.media[0].parts[0]` when `movie.media` is non-empty: size in bytes and
file path.  `lastViewedAt` is the day number rendered by
`strftime('%Y-%m-%d')`. -/
structure PlexMovie where
  ratingKey : String
  title : String
  year : Option Int
  media0 : Option (Int × Option String)
  lastViewedAt : Option Int
  viewCount : Nat
deriving DecidableEq, Repr

/-- A Plex show entry, with the fields the builder reads. -/
structure PlexShow where
  ratingKey : String
  title : String
  childCount : Nat
  leafCount : Nat
  locations : List String
  lastViewedAt : Option Int
  viewCount : Nat
deriving DecidableEq, Repr

/-- One Plex library section (`section.type` is `'movie'` or `'show'`). -/
inductive PlexSection where
  | movies (l : List PlexMovie)
  | shows (l : List PlexShow)
deriving DecidableEq, Repr

/-- A `StreamingCard` (`SMovie`/`SShow` of models.py); `cardType` is the
dataclass `type` field (`'Movie'` / `'TV'`). -/
structure SCard where
  id : String
  title : String
  size : ℚ
  streamingServices : List String
  filePath : Option String
  rootFolderPath : Option String
  cardType : String
deriving DecidableEq, Repr

/-- The `Media(all_media, streaming_media)` aggregate of models.py. -/
structure Media where
  all_media : List MediaItem
  streaming_media : List SCard
deriving DecidableEq, Repr

/-- What `_get_plex_library` actually returns: on connection failure the
bare list `[]`, otherwise a `Media` object. -/
inductive PlexLibraryResult where
  | bare (l : List MediaItem)
  | mediaObj (m : Media)
deriving DecidableEq, Repr

/-- The external world of one `_get_plex_library` run: the Plex connection
and sections, the Sonarr/Radarr title→id maps, the cached Radarr
`moviePath` dictionary, the cached Sonarr `seriesSize` dictionary (`none`
when `sonarr_summary_raw` is not cached), `get_series_size` (bytes, 0 when
not found), `get_series_root_folder` for a valid id, the Sonarr series
status lookup (`none` on a missing key or an exception), the two
streaming-availability lookups, and the raw `TV_ARCHIVE_FOLDERS` variable. -/
structure PlexEnv where
  connected : Bool
  sections : List PlexSection
  sonarrTitleIdMap : String → Option Nat
  radarrTitleIdMap : String → Option Nat
  radarrMoviePaths : Nat → Option String
  cachedSonarrSizes : Option (Nat → Option Int)
  getSeriesSize : Nat → Int
  seriesRootFolder : Nat → Option String
  seriesStatus : Nat → Option String
  movieAvailability : String → Availability
  tvAvailability : String → Availability
  tvArchiveFoldersRaw : Option String

/-- Python `round(x, 2)` (half-to-even on the rational value; the source
rounds a binary float, approximated here exactly on ℚ). -/
def round2 (x : ℚ) : ℚ :=
  let y := x * 100
  let f := ⌊y⌋
  let r := y - (f : ℚ)
  ((if r < 1/2 then f
    else if (1 : ℚ)/2 < r then f + 1
    else if f % 2 = 0 then f else f + 1 : Int) : ℚ) / 100

/-- Python truthiness of an optional integer id (`None` and `0` are falsy). -/
def truthyOptNat : Option Nat → Bool
  | none => false
  | some n => n ≠ 0

/-- `get_series_root_folder(series_id)` as called by the builder: for a
matched id it is the env lookup; for `None` the source issues an HTTP GET of
`/api/v3/series/None`, which is not a valid series route, so the non-200
branch returns `None`. -/
def get_series_root_folder (env : PlexEnv) : Option Nat → Option String
  | none => none
  | some i => env.seriesRootFolder i

/-- One iteration of the movie loop of `_get_plex_library`: the built
`Movie` item and the `SMovie` streaming-highlight cards appended during the
iteration (`ss.all is not None` always holds, so a card is appended whenever
the 15GB gate opens). -/
def buildMovie (env : PlexEnv) (m : PlexMovie) : MediaItem × List SCard :=
  let size_gb : ℚ := match m.media0 with
    | some (sz, _) => (sz : ℚ) / 1073741824
    | none => 0
  let movie_id := env.radarrTitleIdMap m.title
  let spath : String := match movie_id with
    | none => "/"
    | some mid => match env.radarrMoviePaths mid with
      | some p => p
      | none => "/"
  let filePath : Option String := match m.media0 with
    | some (_, f) => f
    | none => none
  let streamingAndCards : SSVal × List SCard :=
    if 15 < size_gb then
      let ss := env.movieAvailability m.title
      (.ofList ss.provider,
       [⟨m.ratingKey, m.title, size_gb, ss.allProviders, filePath, some spath, "Movie"⟩])
    else (.ofStr "", [])
  ({ id := m.ratingKey, title := m.title, type := "movie",
     size := round2 size_gb, lastWatched := m.lastViewedAt,
     watchCount := m.viewCount, status := some "active",
     rule := if streamingAndCards.1.truthy then some "delete-if-streaming" else none,
     streamingServices := streamingAndCards.1, filePath := filePath,
     rootFolderPath := some spath, reason := none, seasons := 0, episodes := 0,
     sonarrId := none, year := m.year, radarrId := movie_id },
   streamingAndCards.2)

/-- One iteration of the show loop of `_get_plex_library`. -/
def buildShow (env : PlexEnv) (sh : PlexShow) : MediaItem × List SCard :=
  let sonarr_id := env.sonarrTitleIdMap sh.title
  let spath := get_series_root_folder env sonarr_id
  let statusAndSize : Option String × ℚ :=
    match sonarr_id with
    | some i =>
      if i ≠ 0 then
        let cachedSize : Int := match env.cachedSonarrSizes with
          | some dict => (dict i).getD 0
          | none => 0
        let show_size : Int := if cachedSize = 0 then env.getSeriesSize i else cachedSize
        (env.seriesStatus i, if show_size ≠ 0 then (show_size : ℚ) / 1073741824 else 0)
      else (none, 0)
    | none => (none, 0)
  let size_gb : ℚ :=
    if statusAndSize.2 = 0 then
      match sonarr_id with
      | some i => if i ≠ 0 then (env.getSeriesSize i : ℚ) / 1073741824 else 0
      | none => 0
    else statusAndSize.2
  let streamingAndCards : SSVal × List SCard :=
    if 10 ≤ size_gb then
      let stv := env.tvAvailability sh.title
      (.ofList stv.provider,
       if 0 < stv.allProviders.length then
         [⟨sh.ratingKey, sh.title, size_gb, stv.allProviders,
           sh.locations.head?, spath, "TV"⟩]
       else [])
    else (.ofStr "TV Show under 10GB", [])
  ({ id := sh.ratingKey, title := sh.title, type := "tv",
     size := round2 size_gb, lastWatched := sh.lastViewedAt,
     watchCount := sh.viewCount,
     status := if is_tv_archive_folder env.tvArchiveFoldersRaw spath then
                 some "archive-ended"
               else statusAndSize.1,
     rule := some "auto-manage", streamingServices := streamingAndCards.1,
     filePath := sh.locations.head?, rootFolderPath := spath, reason := none,
     seasons := sh.childCount, episodes := sh.leafCount, sonarrId := sonarr_id,
     year := none, radarrId := none },
   streamingAndCards.2)

/-- `_get_plex_library()` (plex_service.py): on a failed connection the
source returns the bare list `[]`; otherwise it accumulates `all_media` and
`streaming_media` across the sections in order and returns
`Media(all_media, streaming_media)`. -/
def get_plex_library_raw (env : PlexEnv) : PlexLibraryResult :=
  if env.connected = false then .bare []
  else
    .mediaObj
      ⟨(env.sections.map (fun sec =>
          match sec with
          | .movies l => l.map (fun m => (buildMovie env m).1)
          | .shows l => l.map (fun s => (buildShow env s).1))).flatten,
       (env.sections.map (fun sec =>
          match sec with
          | .movies l => (l.map (fun m => (buildMovie env m).2)).flatten
          | .shows l => (l.map (fun s => (buildShow env s).2)).flatten)).flatten⟩

/-- A fully offline environment: no Plex connection, empty upstream data. -/
def envOffline : PlexEnv :=
  { connected := false, sections := [],
    sonarrTitleIdMap := fun _ => none, radarrTitleIdMap := fun _ => none,
    radarrMoviePaths := fun _ => none, cachedSonarrSizes := none,
    getSeriesSize := fun _ => 0, seriesRootFolder := fun _ => none,
    seriesStatus := fun _ => none,
    movieAvailability := fun _ => ⟨[], []⟩, tvAvailability := fun _ => ⟨[], []⟩,
    tvArchiveFoldersRaw := none }

/-- A Plex movie entry whose title is tracked by no library manager. -/
def pmLost : PlexMovie := ⟨"10", "Lost Film", none, none, none, 0⟩

/-- A Plex show entry whose title is tracked by no library manager. -/
def shLost : PlexShow := ⟨"11", "Lost Show", 1, 10, [], none, 0⟩

/-- A connected environment with one movie section and no title matches. -/
def envNoMatch : PlexEnv :=
  { envOffline with connected := true, sections := [.movies [pmLost]] }

/-- C7: when the Plex connection cannot be established, `_get_plex_library`
returns the bare empty list `[]` — one empty sequence, not a `Media` object
with two empty sequences (every caller immediately reads `.all_media`, which
this value does not have). -/
theorem c7_connection_failure_bare_list (env : PlexEnv)
    (h : env.connected = false) :
    get_plex_library_raw env = .bare [] ∧
    ∀ m : Media, PlexLibraryResult.bare [] ≠ .mediaObj m := by
  constructor
  · unfold get_plex_library_raw
    rw [h]
    rfl
  · intro m hc
    exact PlexLibraryResult.noConfusion hc

/-- C7 witness: the failure value at a concrete offline environment. -/
theorem c7_connection_failure_witness :
    get_plex_library_raw envOffline = .bare [] :=
  (c7_connection_failure_bare_list envOffline rfl).1

/-- C8 (counterexample): a movie entry with no exact title match in Radarr is
built with `rootFolderPath = '/'` (the hardcoded default), not null — and
this item is what the snapshot contains. -/
theorem c8_unmatched_movie_counterexample :
    (buildMovie envNoMatch pmLost).1.rootFolderPath = some "/" ∧
    (some "/" : Option String) ≠ none ∧
    get_plex_library_raw envNoMatch =
      .mediaObj ⟨[(buildMovie envNoMatch pmLost).1], []⟩ := by
  refine ⟨rfl, by decide, rfl⟩

/-- C8 (amended): an entry whose title has no exact match gets
`rootFolderPath = none` when it is a show; an unmatched movie instead gets
the default `'/'` (and is therefore not marked not-monitored later). -/
theorem c8_unmatched_title_root_path (env : PlexEnv) (sh : PlexShow)
    (pm : PlexMovie)
    (hs : env.sonarrTitleIdMap sh.title = none)
    (hm : env.radarrTitleIdMap pm.title = none) :
    (buildShow env sh).1.rootFolderPath = none ∧
    (buildMovie env pm).1.rootFolderPath = some "/" := by
  constructor
  · simp only [buildShow, get_series_root_folder, hs]
  · simp only [buildMovie, hm]

/-- C8 witness: the amended theorem at the concrete unmatched show and
movie. -/
theorem c8_unmatched_title_witness :
    (buildShow envNoMatch shLost).1.rootFolderPath = none ∧
    (buildMovie envNoMatch pmLost).1.rootFolderPath = some "/" :=
  c8_unmatched_title_root_path envNoMatch shLost pmLost rfl rfl

end SSM
